import Mathlib

/-!
Verification of the RPC-over-port messaging layer of the browser-extension
repository: error normalization (src/lib/messaging/errors.ts), correlation-id
generation (messaging core), the client-side link state machine and the
server-side dispatcher (tRPC extension link/handler module).
-/

namespace ExtMsg

/-! ### Error model, embedded from src/lib/messaging/errors.ts -/

/-- The tRPC error category keys, exactly the keys of the status map in
`getHTTPStatusFromTRPCError`. -/
inductive TRPCCode where
  | PARSE_ERROR | BAD_REQUEST | UNAUTHORIZED | PAYMENT_REQUIRED | FORBIDDEN
  | NOT_FOUND | TIMEOUT | CONFLICT | PRECONDITION_FAILED | PAYLOAD_TOO_LARGE
  | UNPROCESSABLE_CONTENT | TOO_MANY_REQUESTS | CLIENT_CLOSED_REQUEST
  | INTERNAL_SERVER_ERROR | NOT_IMPLEMENTED | BAD_GATEWAY | SERVICE_UNAVAILABLE
  | GATEWAY_TIMEOUT | METHOD_NOT_SUPPORTED | UNSUPPORTED_MEDIA_TYPE
  deriving DecidableEq, Repr

/-- `getHTTPStatusFromTRPCError` from errors.ts: category to HTTP status. -/
def getHTTPStatusFromTRPCError : TRPCCode → Nat
  | .PARSE_ERROR => 400
  | .BAD_REQUEST => 400
  | .UNAUTHORIZED => 401
  | .PAYMENT_REQUIRED => 402
  | .FORBIDDEN => 403
  | .NOT_FOUND => 404
  | .TIMEOUT => 408
  | .CONFLICT => 409
  | .PRECONDITION_FAILED => 412
  | .PAYLOAD_TOO_LARGE => 413
  | .UNPROCESSABLE_CONTENT => 422
  | .TOO_MANY_REQUESTS => 429
  | .CLIENT_CLOSED_REQUEST => 499
  | .INTERNAL_SERVER_ERROR => 500
  | .NOT_IMPLEMENTED => 501
  | .BAD_GATEWAY => 502
  | .SERVICE_UNAVAILABLE => 503
  | .GATEWAY_TIMEOUT => 504
  | .METHOD_NOT_SUPPORTED => 405
  | .UNSUPPORTED_MEDIA_TYPE => 415

/-- `getJSONRPCErrorCode` from errors.ts: category to JSON-RPC numeric code,
defaulting to the internal-error code -32603 for unmapped categories. -/
def getJSONRPCErrorCode : TRPCCode → Int
  | .PARSE_ERROR => -32700
  | .BAD_REQUEST => -32600
  | .NOT_FOUND => -32601
  | .INTERNAL_SERVER_ERROR => -32603
  | .METHOD_NOT_SUPPORTED => -32601
  | _ => -32603

/-- A structured procedure error (`TRPCError`): category, message, and the
stack/cause diagnostics that may or may not be transmitted. The cause is kept
as an opaque rendering. -/
structure TRPCErrorS where
  code : TRPCCode
  message : String
  stack : Option String := none
  cause : Option String := none
  deriving DecidableEq, Repr

/-- An arbitrary thrown value as it reaches the normalization boundary:
already a structured error, an Error-like value (message plus stack), or any
other value rendered by String(...). -/
inductive ThrownVal where
  | trpcE : TRPCErrorS → ThrownVal
  | errE : (message : String) → (stack : Option String) → ThrownVal
  | otherE : (asString : String) → ThrownVal
  deriving DecidableEq, Repr

/-- Normalization of a thrown value into a structured procedure error: a
structured error passes through; an Error-like value is wrapped as
INTERNAL_SERVER_ERROR keeping its message (and recorded as its own cause);
anything else is stringified.  This is the behavior of the dispatcher's
`getTRPCErrorFromUnknown` call and of the inline branches at the top of
`formatTRPCError` in errors.ts, which coincide. -/
def getTRPCErrorFromUnknown : ThrownVal → TRPCErrorS
  | .trpcE e => e
  | .errE m st => { code := .INTERNAL_SERVER_ERROR, message := m, stack := st, cause := some m }
  | .otherE s => { code := .INTERNAL_SERVER_ERROR, message := s, cause := some s }

/-- The `data` field of a transmitted error envelope, from `formatTRPCError`. -/
structure FormattedErrorData where
  code : TRPCCode
  httpStatus : Nat
  stack : Option String
  path : Option String
  cause : Option String
  deriving DecidableEq, Repr

/-- A transmitted error envelope `{code, message, data}`, from
`formatTRPCError`. -/
structure FormattedError where
  code : Int
  message : String
  data : Option FormattedErrorData
  deriving DecidableEq, Repr

/-- `formatTRPCError` from errors.ts: normalize the thrown value, then build
the wire error object.  The development-build flag (`import.meta.env.DEV`) is
made an explicit parameter; the stack and the cause are transmitted only when
it is set. -/
def formatTRPCError (error : ThrownVal) (path : Option String) (isDev : Bool) :
    FormattedError :=
  let trcpError := getTRPCErrorFromUnknown error
  { code := getJSONRPCErrorCode trcpError.code
    message := trcpError.message
    data := some {
      code := trcpError.code
      httpStatus := getHTTPStatusFromTRPCError trcpError.code
      stack := if isDev then trcpError.stack else none
      path := path
      cause := if isDev then trcpError.cause else none } }

/-- `createTimeoutError` from errors.ts. -/
def createTimeoutError (timeout : Int) (path : Option String) : TRPCErrorS :=
  { code := .TIMEOUT
    message := "Request timed out after " ++ toString timeout ++ "ms" ++
      (match path with | some p => " for " ++ p | none => "") }

/-- `createDisconnectionError` from errors.ts. -/
def createDisconnectionError (reason : Option String) : TRPCErrorS :=
  { code := .CLIENT_CLOSED_REQUEST
    message := "Connection closed" ++
      (match reason with | some r => ": " ++ r | none => "") }

/-- Client-side reconstruction of a structured error from a received wire
error, from the extension link message handler: the category is read from
`data.code` when present, defaulting to INTERNAL_SERVER_ERROR, and the
message is copied. -/
def clientErrorFromWire (f : FormattedError) : TRPCErrorS :=
  { code := (f.data.map FormattedErrorData.code).getD .INTERNAL_SERVER_ERROR
    message := f.message }

/-! ### Correlation-id generation, embedded from the messaging core -/

/-- `generateId` from the messaging core:
`Date.now() + "-" + Math.random().toString(36).substring(2, 9)`, with the
clock reading and the random draw made explicit inputs.  The random component
is a short base-36 string; it never contains a dash. -/
def generateId (now : Nat) (rand : String) : String :=
  toString now ++ "-" ++ rand

/-! ### Client-side link, embedded from `extensionLink`

One invocation of the link produces an observable whose producer registers a
message listener and a disconnect listener on the port, posts the request,
arms a timeout timer (`options.timeout ?? 30000`, armed only when positive),
and returns a teardown.  Per the observable contract of the host RPC library,
a terminal `observer.error` / `observer.complete` call runs the teardown
synchronously; for this invocation the teardown reduces to the `cleanup`
closure (the subscription teardown skips its stop message because
`isCompleted` is already set on every terminal path), which clears the timer
and removes both listeners.  The state below records the flags and listener
registrations of one invocation, together with every observer signal
delivered to the caller, split by terminal cause. -/

/-- Configuration of one link invocation: the resolved timeout, the invoked
path, and whether the operation is a subscription. -/
structure LinkConfig where
  timeout : Int
  path : String
  isSub : Bool
  deriving DecidableEq, Repr

/-- `options.timeout ?? 30000` — the default applies only when the option is
absent. -/
def resolveTimeout : Option Int → Int
  | some t => t
  | none => 30000

/-- The body of a response envelope as the client message handler
discriminates it: an error object, a result of type data / started / stopped,
or an envelope with neither field. -/
inductive RespPayload where
  | errP : FormattedError → RespPayload
  | dataP : RespPayload
  | startedP : RespPayload
  | stoppedP : RespPayload
  | emptyP : RespPayload
  deriving DecidableEq, Repr

/-- An event delivered to one invocation: its timer fires, a response
envelope arrives (the Bool tells whether its id equals this invocation's id),
or the port disconnects. -/
inductive LinkEvent where
  | fire : LinkEvent
  | msg : Bool → RespPayload → LinkEvent
  | disc : LinkEvent
  deriving DecidableEq, Repr

/-- State of one client invocation: the `isCompleted` flag, whether the
timeout timer is armed, whether the message/disconnect listeners are still
registered, and the observer signals delivered so far (next and complete as
counters, errors as lists split by terminal cause). -/
structure LinkState where
  isCompleted : Bool
  timerArmed : Bool
  msgListener : Bool
  discListener : Bool
  nexts : Nat
  completes : Nat
  timeoutErrs : List TRPCErrorS
  discErrs : List TRPCErrorS
  respErrs : List TRPCErrorS
  deriving DecidableEq, Repr

/-- State right after the listeners are attached, the request is posted and
`setupTimeout` ran: pending, listeners registered, timer armed exactly when
the timeout is positive, nothing delivered. -/
def initLinkState (cfg : LinkConfig) : LinkState :=
  { isCompleted := false
    timerArmed := decide (cfg.timeout > 0)
    msgListener := true
    discListener := true
    nexts := 0
    completes := 0
    timeoutErrs := []
    discErrs := []
    respErrs := [] }

/-- The `cleanup` closure: clear the timer, remove both listeners. -/
def cleanup (s : LinkState) : LinkState :=
  { s with timerArmed := false, msgListener := false, discListener := false }

/-- One step of the invocation state machine.  `fire` is the timeout
callback (it can only run while the timer is armed; firing consumes the
timer).  `msg` is the port message handler: it ignores foreign ids, clears
the timer on any matching envelope, then discriminates error / stopped /
other-result; for query/mutation a data result also completes the
invocation.  `disc` is the port disconnect handler.  Terminal observer calls
run the teardown, i.e. `cleanup`. -/
def linkStep (cfg : LinkConfig) (s : LinkState) (e : LinkEvent) : LinkState :=
  match e with
  | .fire =>
    if s.timerArmed then
      if s.isCompleted then { s with timerArmed := false }
      else
        cleanup { s with
          isCompleted := true
          timerArmed := false
          timeoutErrs := s.timeoutErrs ++ [createTimeoutError cfg.timeout (some cfg.path)] }
    else s
  | .msg idOk p =>
    if s.msgListener && idOk then
      let s1 := { s with timerArmed := false }
      match p with
      | .errP f =>
        cleanup { s1 with
          isCompleted := true
          respErrs := s1.respErrs ++ [clientErrorFromWire f] }
      | .stoppedP =>
        cleanup { s1 with isCompleted := true, completes := s1.completes + 1 }
      | .dataP | .startedP =>
        if cfg.isSub then { s1 with nexts := s1.nexts + 1 }
        else
          cleanup { s1 with
            isCompleted := true
            nexts := s1.nexts + 1
            completes := s1.completes + 1 }
      | .emptyP => s1
    else s
  | .disc =>
    if s.discListener then
      if s.isCompleted then cleanup s
      else
        cleanup { s with
          isCompleted := true
          discErrs := s.discErrs ++
            [createDisconnectionError (some "Port disconnected unexpectedly")] }
    else s

/-- Run one invocation against a sequence of events. -/
def linkRun (cfg : LinkConfig) (es : List LinkEvent) : LinkState :=
  es.foldl (linkStep cfg) (initLinkState cfg)

/-- Number of terminal deliveries to the caller: completes plus errors of any
cause. -/
def terminalCount (s : LinkState) : Nat :=
  s.completes + s.timeoutErrs.length + s.discErrs.length + s.respErrs.length

/-- All per-invocation resources are gone: timer cleared, both listeners
removed. -/
def cleanedUp (s : LinkState) : Prop :=
  s.timerArmed = false ∧ s.msgListener = false ∧ s.discListener = false

/-- The inductive invariant of one invocation: the terminal count mirrors the
`isCompleted` flag; a completed invocation is fully cleaned up; the timer
cannot outlive the message listener; a removed listener means the invocation
is completed. -/
def LinkInv (s : LinkState) : Prop :=
  (terminalCount s = if s.isCompleted then 1 else 0)
  ∧ (s.isCompleted = true → cleanedUp s)
  ∧ (s.timerArmed = true → s.msgListener = true)
  ∧ (s.discListener = false → s.isCompleted = true)
  ∧ (s.msgListener = false → s.isCompleted = true)

/-! ### Server-side dispatcher, embedded from `createExtensionHandler` -/

/-- An input or output value crossing the wire (kept small; the protocol is
generic in it). -/
inductive PValue where
  | str : String → PValue
  | num : Int → PValue
  | unitV : PValue
  deriving DecidableEq, Repr

/-- The outcome of calling an application procedure: a plain result value or
a thrown value. -/
inductive ProcOutcome where
  | ok : PValue → ProcOutcome
  | thrown : ThrownVal → ProcOutcome

/-- The procedure tree the dispatcher walks: a callable leaf (a function
value in JS, so `typeof` is not `object`) or a router namespace object whose
fields map names to child nodes. -/
inductive ProcNode where
  | leaf : (PValue → ProcOutcome) → ProcNode
  | node : List (String × ProcNode) → ProcNode

/-- Field lookup on a namespace object; a missing field is `undefined`, which
is falsy. -/
def lookupField : List (String × ProcNode) → String → Option ProcNode
  | [], _ => none
  | (k, v) :: rest, key => if k = key then some v else lookupField rest key

/-- The path-walking loop of the dispatcher, over the already split segment
list: before indexing, a non-object current value fails with the
segment-naming NOT_FOUND message; a missing (falsy) field fails with the
plain NOT_FOUND message naming only the full path. -/
def resolveGo (path : String) (cur : ProcNode) : List String → Except TRPCErrorS ProcNode
  | [] => .ok cur
  | part :: rest =>
    match cur with
    | .leaf _ =>
      .error { code := .NOT_FOUND
               message := "Procedure " ++ path ++ " not found - invalid path at " ++ part }
    | .node fields =>
      match lookupField fields part with
      | none => .error { code := .NOT_FOUND, message := "Procedure " ++ path ++ " not found" }
      | some next => resolveGo path next rest

/-- Splitting accumulator for `splitDot`: emit the accumulated segment at
every dot and at the end of the input. -/
def splitDotAux : List Char → List Char → List String
  | [], acc => [String.mk acc.reverse]
  | c :: rest, acc =>
    if c = '.' then String.mk acc.reverse :: splitDotAux rest []
    else splitDotAux rest (c :: acc)

/-- `path.split(".")` of the dispatcher: the list of dot-separated segments,
with empty segments preserved (an empty path yields one empty segment). -/
def splitDot (s : String) : List String :=
  splitDotAux s.data []

/-- Resolution of a dotted path against the caller object:
`path.split(".")` then the walking loop. -/
def resolveProcedure (root : ProcNode) (path : String) : Except TRPCErrorS ProcNode :=
  resolveGo path root (splitDot path)

/-- The invocation attempt inside the dispatcher's try block: resolve the
path (a failure throws the NOT_FOUND error), check the method, call the
procedure (calling a namespace object raises a JS TypeError; an unknown
method throws BAD_REQUEST before any call). -/
def invokeAttempt (root : ProcNode) (method path : String) (input : PValue) :
    Except ThrownVal PValue :=
  match resolveProcedure root path with
  | .error e => .error (ThrownVal.trpcE e)
  | .ok proc =>
    if method = "query" || method = "mutation" || method = "subscription" then
      match proc with
      | .leaf f =>
        match f input with
        | .ok v => .ok v
        | .thrown t => .error t
      | .node _ => .error (ThrownVal.errE "procedure is not a function" none)
    else
      .error (ThrownVal.trpcE { code := TRPCCode.BAD_REQUEST
                                message := "Unknown method type: " ++ method })

/-- One incoming request envelope. -/
structure Request where
  reqId : String
  method : String
  path : String
  input : PValue
  deriving Repr

/-- The argument record of one `onError` callback invocation:
`{error, type, path, input, ctx, req}`. -/
structure OnErrorCall where
  error : TRPCErrorS
  type : String
  path : String
  input : PValue
  ctx : PValue
  reqPort : Nat
  deriving DecidableEq, Repr

/-- The body of a response envelope the dispatcher posts. -/
inductive WireBody where
  | dataB : PValue → WireBody
  | startedB : WireBody
  | stoppedB : WireBody
  | errB : FormattedError → WireBody
  deriving DecidableEq, Repr

/-- A posted response envelope: correlation id plus body. -/
structure SentMsg where
  id : String
  body : WireBody
  deriving DecidableEq, Repr

/-- What handling one request produced: the `onError` invocations and the
posted envelopes. -/
structure HandleOutcome where
  onErrorCalls : List OnErrorCall
  sent : List SentMsg
  deriving DecidableEq, Repr

/-- The dispatcher's message handler for one `query`/`mutation`/
`subscription` request whose procedure returns a plain (non-observable)
value: on success post one data response; on any throw, normalize the cause,
report it once to `onError` with the method, path, raw input, context and
originating port, and post one failure response for the same id.  (A
subscription whose procedure returns an observable is registered in the
subscription table instead; its later lifecycle is the `subStep` machine
below.) -/
def handleRequest (root : ProcNode) (isDev : Bool) (ctx : PValue) (reqPort : Nat)
    (r : Request) : HandleOutcome :=
  match invokeAttempt root r.method r.path r.input with
  | .ok v => { onErrorCalls := [], sent := [⟨r.reqId, WireBody.dataB v⟩] }
  | .error cause =>
    let error := getTRPCErrorFromUnknown cause
    { onErrorCalls := [⟨error, r.method, r.path, r.input, ctx, reqPort⟩]
      sent := [⟨r.reqId, WireBody.errB (formatTRPCError (ThrownVal.trpcE error) (some r.path) isDev)⟩] }

/-- The dispatcher handles each incoming request of a channel independently;
a throwing request produces its own outcome and handling continues. -/
def handleAll (root : ProcNode) (isDev : Bool) (ctx : PValue) (reqPort : Nat)
    (rs : List Request) : List HandleOutcome :=
  rs.map (handleRequest root isDev ctx reqPort)

/-! ### Server-side subscription lifecycle, embedded from the observable
subscription block of `createExtensionHandler`

After a subscription procedure returns an observable, the dispatcher
subscribes to it, stores the cancel handle in the per-channel table under the
invocation id, and posts a started acknowledgement.  The stream's signals
reach the dispatcher's callbacks through the observable wrapper of the host
RPC library, which ignores every signal after the first terminal one
(`isDone`) and releases the stream resource when a terminal signal is
forwarded.  The dispatcher's `next` callback posts a data response; its
`error` callback normalizes the error and posts a failure response (without
touching the table); its `complete` callback posts a stopped response and
deletes the table entry.  A `subscription.stop` message releases the handle
and deletes the entry when present, and is a no-op otherwise. -/

/-- Configuration of one server-side subscription: the procedure path (used
to format stream errors) and the build flag. -/
structure SubCfg where
  path : String
  isDev : Bool
  deriving DecidableEq, Repr

/-- State of one server-side subscription: whether its id is in the
per-channel table, the observable wrapper's terminal guard, whether the
underlying stream resource has been released, and the responses posted for
this id (data/started/stopped as counters, failures with their envelopes). -/
structure SubState where
  inTable : Bool
  isDone : Bool
  released : Bool
  startedMsgs : Nat
  dataMsgs : Nat
  stoppedMsgs : Nat
  failMsgs : List FormattedError
  deriving DecidableEq, Repr

/-- An event of one server-side subscription: a stream signal (value, error
or completion) or a `subscription.stop` message from the client for this id. -/
inductive SubEvent where
  | nextSig : PValue → SubEvent
  | errorSig : ThrownVal → SubEvent
  | completeSig : SubEvent
  | stopMsg : SubEvent

/-- State right after registration: entry stored, stream live, started
acknowledgement posted. -/
def initSubState : SubState :=
  { inTable := true, isDone := false, released := false
    startedMsgs := 1, dataMsgs := 0, stoppedMsgs := 0, failMsgs := [] }

/-- One step of the server-side subscription lifecycle. -/
def subStep (cfg : SubCfg) (s : SubState) (e : SubEvent) : SubState :=
  match e with
  | .nextSig _ =>
    if s.isDone then s else { s with dataMsgs := s.dataMsgs + 1 }
  | .errorSig t =>
    if s.isDone then s
    else
      { s with
        isDone := true
        released := true
        failMsgs := s.failMsgs ++
          [formatTRPCError (ThrownVal.trpcE (getTRPCErrorFromUnknown t))
            (some cfg.path) cfg.isDev] }
  | .completeSig =>
    if s.isDone then s
    else
      { s with
        isDone := true
        released := true
        inTable := false
        stoppedMsgs := s.stoppedMsgs + 1 }
  | .stopMsg =>
    if s.inTable then { s with inTable := false, released := true } else s

/-- Run one server-side subscription against an event sequence. -/
def subRun (cfg : SubCfg) (es : List SubEvent) : SubState :=
  es.foldl (subStep cfg) initSubState

/-- Number of failure responses posted for this subscription. -/
def failCount (s : SubState) : Nat := s.failMsgs.length

/-- Number of stopped responses posted for this subscription. -/
def stopCount (s : SubState) : Nat := s.stoppedMsgs

/-- Whether a subscription event is a stream terminal signal. -/
def isTerminalSig : SubEvent → Bool
  | .errorSig _ => true
  | .completeSig => true
  | _ => false

/-- Whether a subscription event is the client's stop message. -/
def isStopEvent : SubEvent → Bool
  | .stopMsg => true
  | _ => false

/-! ### Per-channel disconnect cleanup, embedded from the port disconnect
listener of `createExtensionHandler` -/

/-- One table entry at disconnect time: its invocation id and whether its
`unsubscribe` call throws. -/
structure ChannelSub where
  id : String
  throwsOnRelease : Bool
  deriving DecidableEq, Repr

/-- Per-channel dispatcher state: the subscription table and the message
listener registration. -/
structure ChannelState where
  subs : List ChannelSub
  msgListener : Bool
  deriving DecidableEq, Repr

/-- The `unsubscribe` call on one entry, as a fallible action. -/
def tryUnsubscribe (sub : ChannelSub) : Except String Unit :=
  if sub.throwsOnRelease then .error sub.id else .ok ()

/-- The `forEach` body of the disconnect listener: call `unsubscribe` on each
entry inside its own try/catch, so a throw is logged and the iteration
continues.  Returns the ids on which `unsubscribe` was invoked and the ids
whose throw was caught. -/
def releaseLoop : List ChannelSub → List String × List String
  | [] => ([], [])
  | sub :: rest =>
    let caughtHere := match tryUnsubscribe sub with
      | .ok _ => []
      | .error e => [e]
    let (calls, caught) := releaseLoop rest
    (sub.id :: calls, caughtHere ++ caught)

/-- What running the disconnect listener produced. -/
structure DisconnectLog where
  releaseCalls : List String
  caughtErrors : List String
  final : ChannelState
  deriving DecidableEq, Repr

/-- The port disconnect listener: release every remaining subscription (each
inside try/catch), clear the table, remove the message listener. -/
def runDisconnect (c : ChannelState) : DisconnectLog :=
  let (calls, caught) := releaseLoop c.subs
  { releaseCalls := calls
    caughtErrors := caught
    final := { subs := [], msgListener := false } }

/-! ### Theorems -/

/-- Every step of the invocation state machine preserves the invariant. -/
theorem linkStep_inv (cfg : LinkConfig) (s : LinkState) (e : LinkEvent)
    (h : LinkInv s) : LinkInv (linkStep cfg s e) := by
  obtain ⟨h1, h2, h3, h4, h5⟩ := h
  rcases s with ⟨ic, ta, ml, dl, nx, cp, te, de, re⟩
  simp only [LinkInv, cleanedUp, terminalCount, cleanup] at *
  cases e with
  | fire =>
    cases ta <;> cases ic <;> simp_all [linkStep, cleanup]
  | msg idOk p =>
    rcases hsub : cfg.isSub with _ | _ <;>
      cases p <;> cases ml <;> cases idOk <;> cases ic <;>
        simp_all [linkStep, cleanup]
  | disc =>
    cases dl <;> cases ic <;> simp_all [linkStep, cleanup]

/-- The initial state of an invocation satisfies the invariant. -/
theorem initLinkState_inv (cfg : LinkConfig) : LinkInv (initLinkState cfg) := by
  simp [LinkInv, initLinkState, terminalCount, cleanedUp]

/-- The invariant holds after any event sequence. -/
theorem linkRun_inv (cfg : LinkConfig) (es : List LinkEvent) :
    LinkInv (linkRun cfg es) := by
  suffices h : ∀ s, LinkInv s → LinkInv (es.foldl (linkStep cfg) s) from
    h _ (initLinkState_inv cfg)
  induction es with
  | nil => intro s hs; simpa using hs
  | cons e rest ih => intro s hs; exact ih _ (linkStep_inv cfg s e hs)

/-- The `isCompleted` flag is never reset. -/
theorem linkStep_completed_mono (cfg : LinkConfig) (s : LinkState) (e : LinkEvent)
    (h : s.isCompleted = true) : (linkStep cfg s e).isCompleted = true := by
  rcases s with ⟨ic, ta, ml, dl, nx, cp, te, de, re⟩
  cases e with
  | fire => cases ta <;> simp_all [linkStep, cleanup]
  | msg idOk p =>
    rcases hsub : cfg.isSub with _ | _ <;>
      cases p <;> cases ml <;> cases idOk <;> simp_all [linkStep, cleanup]
  | disc => cases dl <;> simp_all [linkStep, cleanup]

/-- A completed invocation stays completed over any further events. -/
theorem linkFold_completed_mono (cfg : LinkConfig) (es : List LinkEvent) :
    ∀ s : LinkState, s.isCompleted = true →
      (es.foldl (linkStep cfg) s).isCompleted = true := by
  induction es with
  | nil => intro s hs; simpa using hs
  | cons e rest ih => intro s hs; exact ih _ (linkStep_completed_mono cfg s e hs)

/-- Processing a disconnect event always leaves the invocation completed:
either the handler was still attached and terminates it, or the handler was
already removed, which only happens after completion. -/
theorem linkStep_disc_completed (cfg : LinkConfig) (s : LinkState)
    (h : LinkInv s) : (linkStep cfg s LinkEvent.disc).isCompleted = true := by
  obtain ⟨h1, h2, h3, h4, h5⟩ := h
  rcases s with ⟨ic, ta, ml, dl, nx, cp, te, de, re⟩
  cases dl <;> cases ic <;> simp_all [linkStep, cleanup]

/-- A disarmed timer stays disarmed and can add no timeout rejection. -/
theorem linkStep_disarmed (cfg : LinkConfig) (s : LinkState) (e : LinkEvent)
    (h : s.timerArmed = false) :
    (linkStep cfg s e).timerArmed = false ∧
    (linkStep cfg s e).timeoutErrs = s.timeoutErrs := by
  rcases s with ⟨ic, ta, ml, dl, nx, cp, te, de, re⟩
  cases e with
  | fire => simp_all [linkStep]
  | msg idOk p =>
    rcases hsub : cfg.isSub with _ | _ <;>
      cases p <;> cases ml <;> cases idOk <;> cases ic <;>
        simp_all [linkStep, cleanup]
  | disc => cases dl <;> cases ic <;> simp_all [linkStep, cleanup]

/-- Over any further events, a disarmed timer stays disarmed and the timeout
rejections do not grow. -/
theorem linkFold_disarmed (cfg : LinkConfig) (es : List LinkEvent) :
    ∀ s : LinkState, s.timerArmed = false →
      (es.foldl (linkStep cfg) s).timerArmed = false ∧
      (es.foldl (linkStep cfg) s).timeoutErrs = s.timeoutErrs := by
  induction es with
  | nil => intro s hs; simpa using hs
  | cons e rest ih =>
    intro s hs
    obtain ⟨ha, ht⟩ := linkStep_disarmed cfg s e hs
    obtain ⟨ha2, ht2⟩ := ih _ ha
    exact ⟨ha2, ht2.trans ht⟩

/-- Processing a matching response envelope clears the timer (when the
listener is already removed, the timer was already cleared), and never adds a
timeout rejection. -/
theorem linkStep_msg_clears_timer (cfg : LinkConfig) (s : LinkState)
    (p : RespPayload) (h : LinkInv s) :
    (linkStep cfg s (LinkEvent.msg true p)).timerArmed = false ∧
    (linkStep cfg s (LinkEvent.msg true p)).timeoutErrs = s.timeoutErrs := by
  obtain ⟨h1, h2, h3, h4, h5⟩ := h
  rcases s with ⟨ic, ta, ml, dl, nx, cp, te, de, re⟩
  rcases hsub : cfg.isSub with _ | _ <;>
    cases p <;> cases ml <;> cases ta <;> simp_all [linkStep, cleanup]

/-- A response envelope whose id does not match the invocation is ignored. -/
theorem linkStep_foreign_msg (cfg : LinkConfig) (s : LinkState)
    (p : RespPayload) : linkStep cfg s (LinkEvent.msg false p) = s := by
  simp [linkStep]


/-- Claim C1: for every client invocation started through the link, at most
one terminal signal (resolve or reject) is ever delivered, however many
matching response envelopes, timeout firings and disconnect events occur;
every terminal path clears the timeout timer and removes the per-invocation
message and disconnect listeners; and when a disconnect event occurs the
terminal delivery happens exactly once. -/
theorem C1_exactly_one_terminal (cfg : LinkConfig) (es : List LinkEvent) :
    terminalCount (linkRun cfg es) ≤ 1
    ∧ (1 ≤ terminalCount (linkRun cfg es) → cleanedUp (linkRun cfg es))
    ∧ (LinkEvent.disc ∈ es → terminalCount (linkRun cfg es) = 1) := by
  obtain ⟨h1, h2, h3, h4, h5⟩ := linkRun_inv cfg es
  refine ⟨?_, ?_, ?_⟩
  · rw [h1]; split <;> simp
  · intro hge
    apply h2
    by_contra hc
    rw [Bool.not_eq_true] at hc
    rw [h1, hc] at hge
    simp at hge
  · intro hmem
    obtain ⟨l1, l2, rfl⟩ := List.append_of_mem hmem
    have hstate : (linkRun cfg (l1 ++ LinkEvent.disc :: l2)).isCompleted = true := by
      unfold linkRun
      rw [List.foldl_append, List.foldl_cons]
      exact linkFold_completed_mono cfg l2 _
        (linkStep_disc_completed cfg _ (linkRun_inv cfg l1))
    rw [h1, hstate]
    simp

/-- Witness for C1 at a concrete invocation and event trace. -/
theorem C1_witness :
    terminalCount (linkRun ⟨30000, "storage.get", false⟩ [LinkEvent.disc]) = 1 :=
  (C1_exactly_one_terminal ⟨30000, "storage.get", false⟩ [LinkEvent.disc]).2.2
    (List.mem_singleton.mpr rfl)

/-- Claim C10: any matching response envelope — including a subscription
started acknowledgement or an intermediate data message — clears the
invocation timeout timer, the timer is never re-armed, and no timeout
rejection is ever produced after a matching envelope arrives; in particular a
subscription that received its started acknowledgement never rejects with a
timeout error afterwards. -/
theorem C10_matching_response_kills_timeout (cfg : LinkConfig)
    (pre : List LinkEvent) (p : RespPayload) (rest : List LinkEvent) :
    (linkRun cfg (pre ++ LinkEvent.msg true p :: rest)).timerArmed = false
    ∧ (linkRun cfg (pre ++ LinkEvent.msg true p :: rest)).timeoutErrs
        = (linkRun cfg pre).timeoutErrs
    ∧ (linkRun cfg (LinkEvent.msg true RespPayload.startedP :: rest)).timeoutErrs
        = [] := by
  have key : ∀ (pre1 : List LinkEvent) (p1 : RespPayload),
      (linkRun cfg (pre1 ++ LinkEvent.msg true p1 :: rest)).timerArmed = false
      ∧ (linkRun cfg (pre1 ++ LinkEvent.msg true p1 :: rest)).timeoutErrs
          = (linkRun cfg pre1).timeoutErrs := by
    intro pre1 p1
    have hmid := linkStep_msg_clears_timer cfg (linkRun cfg pre1) p1
      (linkRun_inv cfg pre1)
    have hfold := linkFold_disarmed cfg rest _ hmid.1
    constructor
    · show (linkRun cfg (pre1 ++ LinkEvent.msg true p1 :: rest)).timerArmed = false
      unfold linkRun
      rw [List.foldl_append, List.foldl_cons]
      exact hfold.1
    · show (linkRun cfg (pre1 ++ LinkEvent.msg true p1 :: rest)).timeoutErrs = _
      unfold linkRun
      rw [List.foldl_append, List.foldl_cons]
      exact hfold.2.trans hmid.2
  refine ⟨(key pre p).1, (key pre p).2, ?_⟩
  have h0 := (key [] RespPayload.startedP).2
  simpa [linkRun] using h0

/-- Claim C6: the link timeout defaults to 30000 ms when not configured; a
non-positive configured value disables the timeout entirely (no timeout
rejection on any trace); with a positive value, if the timer fires before any
matching response or disconnect was seen, the invocation rejects exactly once
with a TIMEOUT-category error whose message spells out the configured
millisecond value and the invoked path. -/
theorem C6_timeout_configuration (cfg : LinkConfig) :
    resolveTimeout none = 30000
    ∧ (cfg.timeout ≤ 0 → ∀ es, (linkRun cfg es).timeoutErrs = [])
    ∧ (0 < cfg.timeout →
        ∀ pre : List LinkEvent, (∀ e ∈ pre, ∃ p, e = LinkEvent.msg false p) →
          (linkRun cfg (pre ++ [LinkEvent.fire])).timeoutErrs
            = [createTimeoutError cfg.timeout (some cfg.path)])
    ∧ (∀ (t : Int) (pa : String),
        (createTimeoutError t (some pa)).code = TRPCCode.TIMEOUT
        ∧ (createTimeoutError t (some pa)).message
            = "Request timed out after " ++ toString t ++ "ms for " ++ pa) := by
  refine ⟨rfl, ?_, ?_, ?_⟩
  · intro hle es
    have hinit : (initLinkState cfg).timerArmed = false := by
      simp [initLinkState]
      omega
    have h := linkFold_disarmed cfg es _ hinit
    simpa [linkRun, initLinkState] using h.2
  · intro hpos pre hpre
    have hnoop : linkRun cfg pre = initLinkState cfg := by
      unfold linkRun
      induction pre with
      | nil => rfl
      | cons e rest ih =>
        obtain ⟨p, rfl⟩ := hpre e (List.mem_cons_self e rest)
        rw [List.foldl_cons, linkStep_foreign_msg]
        exact ih (fun e he => hpre e (List.mem_cons_of_mem _ he))
    unfold linkRun
    rw [List.foldl_append]
    show (List.foldl (linkStep cfg) (linkRun cfg pre) [LinkEvent.fire]).timeoutErrs = _
    rw [hnoop]
    simp [linkStep, initLinkState, cleanup, hpos]
  · intro t pa
    have hlit : ∀ s : String, ("ms" : String) ++ (" for " ++ s) = "ms for " ++ s := by
      intro s
      rw [← String.append_assoc, show ("ms" : String) ++ " for " = "ms for " from rfl]
    refine ⟨rfl, ?_⟩
    simp only [createTimeoutError, String.append_assoc, hlit]

/-- Witness for C6 at a concrete configuration: timeout of 50 ms, timer
fires first. -/
theorem C6_witness :
    (linkRun ⟨50, "demo.mutate", false⟩ [LinkEvent.fire]).timeoutErrs
      = [createTimeoutError 50 (some "demo.mutate")] := by
  have h := (C6_timeout_configuration ⟨50, "demo.mutate", false⟩).2.2.1 (by norm_num) []
    (by simp)
  simpa using h


/-- Example procedure tree for path-resolution: `a` is a namespace holding
only `x`, so segment `b` is missing from an object node, and `a.x` is a
callable leaf. -/
def exTreeC3 : ProcNode :=
  ProcNode.node [("a", ProcNode.node [("x", ProcNode.leaf (fun _ => ProcOutcome.ok PValue.unitV))])]

/-- Any failure of the walking loop is a NOT_FOUND error naming the full
path, and it names a segment only in the non-object descent case. -/
theorem resolveGo_error_shape (path : String) :
    ∀ (parts : List String) (cur : ProcNode) (e : TRPCErrorS),
      resolveGo path cur parts = .error e →
      e.code = TRPCCode.NOT_FOUND
      ∧ (e.message = "Procedure " ++ path ++ " not found"
         ∨ ∃ part ∈ parts,
             e.message = "Procedure " ++ path ++ " not found - invalid path at " ++ part) := by
  intro parts
  induction parts with
  | nil => intro cur e h; simp [resolveGo] at h
  | cons part rest ih =>
    intro cur e h
    cases cur with
    | leaf f =>
      simp only [resolveGo, Except.error.injEq] at h
      subst h
      exact ⟨rfl, Or.inr ⟨part, List.mem_cons_self part rest, rfl⟩⟩
    | node fields =>
      simp only [resolveGo] at h
      cases hlf : lookupField fields part with
      | none =>
        rw [hlf] at h
        simp only [Except.error.injEq] at h
        subst h
        exact ⟨rfl, Or.inl rfl⟩
      | some next =>
        rw [hlf] at h
        obtain ⟨hc, hm⟩ := ih next e h
        refine ⟨hc, ?_⟩
        rcases hm with hm | ⟨part2, hmem, hm⟩
        · exact Or.inl hm
        · exact Or.inr ⟨part2, List.mem_cons_of_mem _ hmem, hm⟩

/-- Counterexample to C3: with segment `b` missing from the namespace node
`a`, resolving `a.b.c` produces the NOT_FOUND error whose message is only
`Procedure a.b.c not found`; the marker that would identify `b` as the
missing segment does not occur in the message. -/
theorem C3_cex :
    resolveProcedure exTreeC3 "a.b.c"
      = Except.error { code := TRPCCode.NOT_FOUND, message := "Procedure a.b.c not found" }
    ∧ ¬ (" - invalid path at b".data <:+: "Procedure a.b.c not found".data) :=
  ⟨rfl, by decide⟩

/-- Claim C3 (amended): every path-resolution failure is a NOT_FOUND error
whose message names the full path; the message additionally identifies a
path segment (via the `invalid path at` marker) only when the walk descends
through a non-object value, while a merely missing segment yields the plain
`Procedure <path> not found` message that does not name the segment. -/
theorem C3_amended_not_found (root : ProcNode) (path : String) (e : TRPCErrorS)
    (h : resolveProcedure root path = .error e) :
    e.code = TRPCCode.NOT_FOUND
    ∧ (e.message = "Procedure " ++ path ++ " not found"
       ∨ ∃ part ∈ splitDot path,
           e.message = "Procedure " ++ path ++ " not found - invalid path at " ++ part) :=
  resolveGo_error_shape path (splitDot path) root e h

/-- Witness for C3 (amended) at the concrete tree of the counterexample: the
missing-segment case and the leaf-descent case where the segment is named. -/
theorem C3_witness :
    ({ code := TRPCCode.NOT_FOUND, message := "Procedure a.b.c not found" } : TRPCErrorS).code
      = TRPCCode.NOT_FOUND
    ∧ ({ code := TRPCCode.NOT_FOUND,
         message := "Procedure a.x.c not found - invalid path at c" } : TRPCErrorS).code
      = TRPCCode.NOT_FOUND :=
  ⟨(C3_amended_not_found exTreeC3 "a.b.c"
      { code := TRPCCode.NOT_FOUND, message := "Procedure a.b.c not found" } rfl).1,
   (C3_amended_not_found exTreeC3 "a.x.c"
      { code := TRPCCode.NOT_FOUND,
        message := "Procedure a.x.c not found - invalid path at c" } rfl).1⟩

/-- The release loop calls `unsubscribe` on every entry and catches exactly
the throwing ones. -/
theorem releaseLoop_spec (l : List ChannelSub) :
    releaseLoop l
      = (l.map ChannelSub.id, (l.filter ChannelSub.throwsOnRelease).map ChannelSub.id) := by
  induction l with
  | nil => rfl
  | cons sub rest ih =>
    by_cases h : sub.throwsOnRelease = true <;>
      simp [releaseLoop, tryUnsubscribe, ih, h, List.filter_cons]

/-- Claim C4: the disconnect handler releases every active subscription of
the channel — even when some releases throw, each throw being caught
individually — empties the subscription table, and detaches the message
listener. -/
theorem C4_disconnect_cleanup (c : ChannelState) :
    (runDisconnect c).releaseCalls = c.subs.map ChannelSub.id
    ∧ (runDisconnect c).final.subs = []
    ∧ (runDisconnect c).final.msgListener = false
    ∧ (runDisconnect c).caughtErrors
        = (c.subs.filter ChannelSub.throwsOnRelease).map ChannelSub.id := by
  refine ⟨?_, rfl, rfl, ?_⟩
  · simp [runDisconnect, releaseLoop_spec]
  · simp [runDisconnect, releaseLoop_spec]

/-- Claim C5: whenever the invoked procedure throws, the dispatcher catches
the thrown value, normalizes it, reports it exactly once to `onError`
together with the operation type, path, input, context and originating port,
posts exactly one failure envelope for that invocation id, and keeps
handling every other request of the channel unchanged. -/
theorem C5_procedure_throw_handling (root : ProcNode) (isDev : Bool) (ctx : PValue)
    (reqPort : Nat) (r : Request) (f : PValue → ProcOutcome) (t : ThrownVal)
    (hproc : resolveProcedure root r.path = .ok (ProcNode.leaf f))
    (hm : r.method = "query" ∨ r.method = "mutation" ∨ r.method = "subscription")
    (hthrow : f r.input = ProcOutcome.thrown t) :
    handleRequest root isDev ctx reqPort r =
      { onErrorCalls := [⟨getTRPCErrorFromUnknown t, r.method, r.path, r.input, ctx, reqPort⟩]
        sent := [⟨r.reqId, WireBody.errB (formatTRPCError
          (ThrownVal.trpcE (getTRPCErrorFromUnknown t)) (some r.path) isDev)⟩] }
    ∧ ∀ (pre post : List Request),
        handleAll root isDev ctx reqPort (pre ++ r :: post)
          = handleAll root isDev ctx reqPort pre
            ++ handleRequest root isDev ctx reqPort r
              :: handleAll root isDev ctx reqPort post := by
  constructor
  · have hatt : invokeAttempt root r.method r.path r.input = .error t := by
      rcases hm with h | h | h <;> simp [invokeAttempt, hproc, h, hthrow]
    simp [handleRequest, hatt]
  · intro pre post
    simp [handleAll]

/-- A procedure tree whose `math.fail` leaf always throws. -/
def exTreeC5 : ProcNode :=
  ProcNode.node [("math", ProcNode.node
    [("fail", ProcNode.leaf (fun _ => ProcOutcome.thrown (ThrownVal.errE "boom" none)))])]

/-- Witness for C5 at a concrete throwing procedure. -/
theorem C5_witness :
    (handleRequest exTreeC5 false PValue.unitV 7
        ⟨"id-1", "query", "math.fail", PValue.unitV⟩).onErrorCalls.length = 1
    ∧ (handleRequest exTreeC5 false PValue.unitV 7
        ⟨"id-1", "query", "math.fail", PValue.unitV⟩).sent.length = 1 := by
  have h := C5_procedure_throw_handling exTreeC5 false PValue.unitV 7
    ⟨"id-1", "query", "math.fail", PValue.unitV⟩
    (fun _ => ProcOutcome.thrown (ThrownVal.errE "boom" none)) (ThrownVal.errE "boom" none)
    rfl (Or.inl rfl) rfl
  rw [h.1]
  exact ⟨rfl, rfl⟩


/-- One subscription step keeps the terminal-response count mirroring the
terminal guard. -/
theorem subStep_counts (cfg : SubCfg) (s : SubState) (e : SubEvent)
    (h : failCount s + stopCount s = (if s.isDone then 1 else 0)) :
    failCount (subStep cfg s e) + stopCount (subStep cfg s e)
      = (if (subStep cfg s e).isDone then 1 else 0) := by
  rcases s with ⟨it, dn, rl, st, da, sp, fl⟩
  simp only [failCount, stopCount] at h ⊢
  cases e <;> cases dn <;> cases it <;> simp_all [subStep]

/-- The terminal-response count of a run mirrors the terminal guard. -/
theorem subRun_counts (cfg : SubCfg) (es : List SubEvent) :
    failCount (subRun cfg es) + stopCount (subRun cfg es)
      = (if (subRun cfg es).isDone then 1 else 0) := by
  suffices h : ∀ s, failCount s + stopCount s = (if s.isDone then 1 else 0) →
      failCount (es.foldl (subStep cfg) s) + stopCount (es.foldl (subStep cfg) s)
        = (if (es.foldl (subStep cfg) s).isDone then 1 else 0) from
    h initSubState rfl
  induction es with
  | nil => intro s hs; simpa using hs
  | cons e rest ih => intro s hs; exact ih _ (subStep_counts cfg s e hs)

/-- A non-terminal, non-stop event changes neither the guard, nor the
terminal counts, nor the table membership, nor the release flag. -/
theorem subStep_quiet (cfg : SubCfg) (s : SubState) (e : SubEvent)
    (ht : isTerminalSig e = false) (hs : isStopEvent e = false) :
    (subStep cfg s e).isDone = s.isDone
    ∧ failCount (subStep cfg s e) = failCount s
    ∧ stopCount (subStep cfg s e) = stopCount s
    ∧ (subStep cfg s e).inTable = s.inTable
    ∧ (subStep cfg s e).released = s.released := by
  rcases s with ⟨it, dn, rl, st, da, sp, fl⟩
  cases e <;> cases dn <;>
    simp_all [subStep, failCount, stopCount, isTerminalSig, isStopEvent]

/-- Once the guard is set, further events leave the posted responses alone,
and leave the table and release flag alone unless a stop message arrives. -/
theorem subStep_done (cfg : SubCfg) (s : SubState) (e : SubEvent)
    (h : s.isDone = true) :
    (subStep cfg s e).isDone = true
    ∧ failCount (subStep cfg s e) = failCount s
    ∧ stopCount (subStep cfg s e) = stopCount s
    ∧ (isStopEvent e = false → (subStep cfg s e).inTable = s.inTable
        ∧ (subStep cfg s e).released = s.released) := by
  rcases s with ⟨it, dn, rl, st, da, sp, fl⟩
  cases e <;> cases it <;>
    simp_all [subStep, failCount, stopCount, isStopEvent]

/-- Quiet prefix: over terminal-free, stop-free events everything relevant
is unchanged. -/
theorem subFold_quiet (cfg : SubCfg) (es : List SubEvent)
    (ht : ∀ e ∈ es, isTerminalSig e = false) (hs : ∀ e ∈ es, isStopEvent e = false) :
    ∀ s, (es.foldl (subStep cfg) s).isDone = s.isDone
      ∧ failCount (es.foldl (subStep cfg) s) = failCount s
      ∧ stopCount (es.foldl (subStep cfg) s) = stopCount s
      ∧ (es.foldl (subStep cfg) s).inTable = s.inTable
      ∧ (es.foldl (subStep cfg) s).released = s.released := by
  induction es with
  | nil => intro s; simp
  | cons e rest ih =>
    intro s
    have h1 := subStep_quiet cfg s e (ht e (List.mem_cons_self e rest))
      (hs e (List.mem_cons_self e rest))
    have h2 := ih (fun x hx => ht x (List.mem_cons_of_mem _ hx))
      (fun x hx => hs x (List.mem_cons_of_mem _ hx)) (subStep cfg s e)
    rw [List.foldl_cons]
    exact ⟨h2.1.trans h1.1, h2.2.1.trans h1.2.1, h2.2.2.1.trans h1.2.2.1,
      h2.2.2.2.1.trans h1.2.2.2.1, h2.2.2.2.2.trans h1.2.2.2.2⟩

/-- Done suffix: once the guard is set, over stop-free events the posted
responses, the table membership and the release flag are unchanged. -/
theorem subFold_done (cfg : SubCfg) (es : List SubEvent)
    (hs : ∀ e ∈ es, isStopEvent e = false) :
    ∀ s, s.isDone = true →
      failCount (es.foldl (subStep cfg) s) = failCount s
      ∧ stopCount (es.foldl (subStep cfg) s) = stopCount s
      ∧ (es.foldl (subStep cfg) s).inTable = s.inTable
      ∧ (es.foldl (subStep cfg) s).released = s.released := by
  induction es with
  | nil => intro s _; simp
  | cons e rest ih =>
    intro s hdone
    have h1 := subStep_done cfg s e hdone
    have h1q := h1.2.2.2 (hs e (List.mem_cons_self e rest))
    have h2 := ih (fun x hx => hs x (List.mem_cons_of_mem _ hx)) (subStep cfg s e) h1.1
    rw [List.foldl_cons]
    exact ⟨h2.1.trans h1.2.1, h2.2.1.trans h1.2.2.1, h2.2.2.1.trans h1q.1,
      h2.2.2.2.trans h1q.2⟩

/-- A fresh stream error posts exactly one more failure response, sets the
guard, releases the stream, and leaves the table membership unchanged. -/
theorem subStep_error_fresh (cfg : SubCfg) (s : SubState) (t : ThrownVal)
    (h : s.isDone = false) :
    (subStep cfg s (SubEvent.errorSig t)).isDone = true
    ∧ failCount (subStep cfg s (SubEvent.errorSig t)) = failCount s + 1
    ∧ stopCount (subStep cfg s (SubEvent.errorSig t)) = stopCount s
    ∧ (subStep cfg s (SubEvent.errorSig t)).inTable = s.inTable
    ∧ (subStep cfg s (SubEvent.errorSig t)).released = true := by
  rcases s with ⟨it, dn, rl, st, da, sp, fl⟩
  simp_all [subStep, failCount, stopCount]

/-- Counterexample to C2: a subscription whose stream errors right after
registration posts exactly one failure response, but its entry is NOT
removed from the per-channel subscription table (only the completion path
deletes the entry). -/
theorem C2_cex :
    failCount (subRun ⟨"events.stream", false⟩
        [SubEvent.errorSig (ThrownVal.errE "boom" none)]) = 1
    ∧ (subRun ⟨"events.stream", false⟩
        [SubEvent.errorSig (ThrownVal.errE "boom" none)]).inTable = true :=
  ⟨rfl, rfl⟩

/-- Claim C2 (amended): at most one terminal response (failure or stopped)
is ever posted per subscription; when the stream errors before any
completion, exactly one failure response carrying the normalized error is
posted and the stream resource is released, but the table entry is NOT
removed by the error path — it stays until a stop message for that id (or
the channel disconnect) removes it. -/
theorem C2_amended_stream_error (cfg : SubCfg) :
    (∀ es, failCount (subRun cfg es) + stopCount (subRun cfg es) ≤ 1)
    ∧ (∀ (pre : List SubEvent) (t : ThrownVal) (post : List SubEvent),
        (∀ e ∈ pre, isTerminalSig e = false) →
        (∀ e ∈ pre, isStopEvent e = false) →
        (∀ e ∈ post, isStopEvent e = false) →
          failCount (subRun cfg (pre ++ SubEvent.errorSig t :: post)) = 1
          ∧ stopCount (subRun cfg (pre ++ SubEvent.errorSig t :: post)) = 0
          ∧ (subRun cfg (pre ++ SubEvent.errorSig t :: post)).inTable = true
          ∧ (subRun cfg (pre ++ SubEvent.errorSig t :: post)).released = true)
    ∧ (∀ s : SubState, s.inTable = true →
        (subStep cfg s SubEvent.stopMsg).inTable = false
        ∧ (subStep cfg s SubEvent.stopMsg).released = true) := by
  refine ⟨?_, ?_, ?_⟩
  · intro es
    rw [subRun_counts cfg es]
    split <;> simp
  · intro pre t post hpt hps hpost
    have hmid := subFold_quiet cfg pre hpt hps initSubState
    have herr := subStep_error_fresh cfg (pre.foldl (subStep cfg) initSubState) t
      (by rw [hmid.1]; rfl)
    have hrest := subFold_done cfg post hpost _ herr.1
    have hsplit : subRun cfg (pre ++ SubEvent.errorSig t :: post)
        = post.foldl (subStep cfg)
            (subStep cfg (pre.foldl (subStep cfg) initSubState) (SubEvent.errorSig t)) := by
      unfold subRun
      rw [List.foldl_append, List.foldl_cons]
    refine ⟨?_, ?_, ?_, ?_⟩
    · rw [hsplit, hrest.1, herr.2.1, hmid.2.1]
      rfl
    · rw [hsplit, hrest.2.1, herr.2.2.1, hmid.2.2.1]
      rfl
    · rw [hsplit, hrest.2.2.1, herr.2.2.2.1, hmid.2.2.2.1]
      rfl
    · rw [hsplit, hrest.2.2.2, herr.2.2.2.2]
  · intro s hs
    rcases s with ⟨it, dn, rl, st, da, sp, fl⟩
    simp_all [subStep]

/-- Witness for C2 (amended) at a concrete erroring stream. -/
theorem C2_witness :
    failCount (subRun ⟨"counter.watch", true⟩
        [SubEvent.errorSig (ThrownVal.otherE "bad")]) = 1 := by
  have h := (C2_amended_stream_error ⟨"counter.watch", true⟩).2.1 []
    (ThrownVal.otherE "bad") [] (by simp) (by simp) (by simp)
  simpa using h.1


/-- Claim C7: serializing a structured procedure error for transmission and
reconstructing it on the receiving side preserves its category and its
message, for every error, path and build mode. -/
theorem C7_error_round_trip (e : TRPCErrorS) (path : Option String) (isDev : Bool) :
    (clientErrorFromWire (formatTRPCError (ThrownVal.trpcE e) path isDev)).code = e.code
    ∧ (clientErrorFromWire (formatTRPCError (ThrownVal.trpcE e) path isDev)).message
        = e.message :=
  ⟨rfl, rfl⟩

/-- Claim C9: in a production build the transmitted error metadata carries
neither the stack nor the cause — the transmitted envelope is a function of
the error's category and message only — while a development build includes
both. -/
theorem C9_production_hides_diagnostics :
    (∀ (t : ThrownVal) (p : Option String),
        (formatTRPCError t p false).data
          = some { code := (getTRPCErrorFromUnknown t).code
                   httpStatus := getHTTPStatusFromTRPCError (getTRPCErrorFromUnknown t).code
                   stack := none
                   path := p
                   cause := none })
    ∧ (∀ (e1 e2 : TRPCErrorS) (p : Option String),
        e1.code = e2.code → e1.message = e2.message →
          formatTRPCError (ThrownVal.trpcE e1) p false
            = formatTRPCError (ThrownVal.trpcE e2) p false)
    ∧ (∀ (e : TRPCErrorS) (p : Option String),
        (formatTRPCError (ThrownVal.trpcE e) p true).data
          = some { code := e.code
                   httpStatus := getHTTPStatusFromTRPCError e.code
                   stack := e.stack
                   path := p
                   cause := e.cause }) := by
  refine ⟨?_, ?_, ?_⟩
  · intro t p
    rfl
  · intro e1 e2 p h1 h2
    simp [formatTRPCError, getTRPCErrorFromUnknown, h1, h2]
  · intro e p
    rfl

/-- Witness for C9: two errors sharing category and message but with
different stack and cause serialize identically in a production build. -/
theorem C9_witness :
    formatTRPCError
        (ThrownVal.trpcE ⟨TRPCCode.NOT_FOUND, "missing", some "stack-a", some "cause-a"⟩)
        (some "a.b") false
      = formatTRPCError
          (ThrownVal.trpcE ⟨TRPCCode.NOT_FOUND, "missing", none, none⟩)
          (some "a.b") false :=
  C9_production_hides_diagnostics.2.1
    ⟨TRPCCode.NOT_FOUND, "missing", some "stack-a", some "cause-a"⟩
    ⟨TRPCCode.NOT_FOUND, "missing", none, none⟩ (some "a.b") rfl rfl

/-- Counterexample to C8: two invocations in the same millisecond drawing
the same random component produce equal correlation ids, so ids within one
process lifetime are not unconditionally pairwise distinct. -/
theorem C8_cex :
    ¬ List.Pairwise (fun a b => a ≠ b)
        (([(1704067200000, "k2j3h4a"), (1704067200000, "k2j3h4a")] : List (Nat × String)).map
          (fun p => generateId p.1 p.2)) := by
  simp [generateId]

/-- Claim C8 (amended): two generated ids differ whenever their random
components differ (the random components drawn by the generator have a fixed
length, so their lengths agree); ids can only coincide when both the
millisecond timestamp and the random component coincide. -/
theorem C8_amended_distinct_rand (n1 n2 : Nat) (r1 r2 : String)
    (hlen : r1.length = r2.length) (hne : r1 ≠ r2) :
    generateId n1 r1 ≠ generateId n2 r2 := by
  intro heq
  apply hne
  have hdata : (toString n1).data ++ '-' :: r1.data
      = (toString n2).data ++ '-' :: r2.data := by
    have h := congrArg String.data heq
    simpa [generateId, String.data_append] using h
  have hlen2 : ('-' :: r1.data).length = ('-' :: r2.data).length := by
    simp only [String.length] at hlen
    simp [hlen]
  obtain ⟨-, h2⟩ := List.append_inj' hdata hlen2
  have hr : r1.data = r2.data := by simpa using h2
  cases r1
  cases r2
  simp_all

/-- Witness for C8 (amended): same timestamp, different random draws, ids
differ. -/
theorem C8_witness :
    generateId 1704067200000 "aaaaaaa" ≠ generateId 1704067200000 "aaaaaab" :=
  C8_amended_distinct_rand 1704067200000 1704067200000 "aaaaaaa" "aaaaaab" rfl
    (by decide)

end ExtMsg
